import Mathlib

/-!
Shallow embedding of the `sigil-registry` service core
(`src/handlers.rs`, `src/handlers_patterns.rs`, `src/handlers_policies.rs`,
`src/auth.rs`, `src/db.rs`, `src/models.rs`) together with theorems settling
the frozen specification claims.

Modelling conventions:
* The PostgreSQL tables become Lean lists inside a `Db` structure; SQL
  `SELECT ... WHERE` becomes `List.find?` / `List.filter`, `UPDATE` becomes
  `List.map` over the rows with the `WHERE` predicate, `rows_affected`
  becomes `List.countP`.
* The Redis cache becomes a function `String → Option CacheVal`;
  a stored value either deserializes (`CacheVal.good`) or is corrupt
  (`CacheVal.corrupt`).  Transient cache faults (GET/SET/DEL errors) are
  oracle booleans in a `CacheEnv` record passed to each handler.
* `NOW()` timestamps and fresh UUIDs are explicit parameters (`now`,
  `newId`).
* Ed25519 verification (`auth::verify_signature`) and regex compilation
  (`regex::Regex::new`) are external-crate computations; they enter the
  embedding as oracle parameters (`SigVerify`, `regexOk`) so that every
  theorem quantifies over their behaviour.
* Machine integers (`i32`/`i64` counters) are modelled as `Int`.
-/

namespace SigilRegistry

-- ── Data model (src/models.rs) ────────────────────────────────────────────────

/-- A registered DID document (row of the `dids` table). -/
structure DidDocument where
  did : String
  public_key : String
  nspace : String
  label : Option String
  status : String
  created_at : Nat
  updated_at : Nat
  revoked_at : Option Nat
deriving DecidableEq, Repr

/-- Request body for `POST /register`. -/
structure RegisterRequest where
  did : String
  public_key : String
  nspace : String
  label : Option String
deriving DecidableEq, Repr

/-- Response for `GET /resolve/{did}`. -/
structure ResolveResponse where
  did : String
  status : String
  public_key : String
  nspace : String
  label : Option String
  created_at : Nat
  updated_at : Nat
  revoked_at : Option Nat
deriving DecidableEq, Repr

/-- Conversion `impl From<DidDocument> for ResolveResponse` (src/models.rs). -/
def toResolveResponse (d : DidDocument) : ResolveResponse :=
  { did := d.did
    status := d.status
    public_key := d.public_key
    nspace := d.nspace
    label := d.label
    created_at := d.created_at
    updated_at := d.updated_at
    revoked_at := d.revoked_at }

/-- A community scanner pattern (row of the `scanner_patterns` table).
UUIDs are modelled as strings. -/
structure ScannerPattern where
  id : String
  name : String
  description : Option String
  category : String
  pattern : String
  replacement_hint : Option String
  severity : String
  author_did : Option String
  downloads : Int
  votes_up : Int
  votes_down : Int
  verified : Bool
  active : Bool
  created_at : Nat
  updated_at : Nat
deriving DecidableEq, Repr

/-- Request body for `POST /patterns`. -/
structure CreatePatternRequest where
  name : String
  description : Option String
  category : String
  pattern : String
  replacement_hint : Option String
  severity : Option String
  author_did : String
  signature : String
deriving DecidableEq, Repr

/-- Query parameters for `GET /patterns`. -/
structure PatternQuery where
  category : Option String
  verified : Option Bool
  limit : Option Int
  offset : Option Int
deriving DecidableEq, Repr

/-- A community security policy (row of the `security_policies` table). -/
structure SecurityPolicy where
  id : String
  tool_name : String
  risk_level : String
  requires_trust : String
  requires_confirmation : Bool
  rationale : Option String
  author_did : Option String
  votes_up : Int
  votes_down : Int
  verified : Bool
  active : Bool
  created_at : Nat
  updated_at : Nat
deriving DecidableEq, Repr

/-- Request body for `POST /policies`. -/
structure CreatePolicyRequest where
  tool_name : String
  risk_level : String
  requires_trust : String
  requires_confirmation : Option Bool
  rationale : Option String
  author_did : String
  signature : String
deriving DecidableEq, Repr

/-- Query parameters for `GET /policies`. -/
structure PolicyQuery where
  tool_name : Option String
  risk_level : Option String
  verified : Option Bool
  limit : Option Int
  offset : Option Int
deriving DecidableEq, Repr

/-- Request body for the two vote endpoints. -/
structure VoteRequest where
  voter_did : String
  vote : String
  signature : String
deriving DecidableEq, Repr

/-- A row of the `registry_votes` ledger.  The migration (not under `src/`)
declares a uniqueness constraint on `(voter_did, target_type, target_id)`;
the handlers rely on it through `ON CONFLICT ... DO NOTHING`. -/
structure VoteRow where
  voter_did : String
  target_type : String
  target_id : String
  vote : String
deriving DecidableEq, Repr

/-- The relational store: the three tables of the service. -/
structure Db where
  dids : List DidDocument
  scanner_patterns : List ScannerPattern
  security_policies : List SecurityPolicy
  registry_votes : List VoteRow
deriving DecidableEq, Repr

-- ── Cache model (Redis, src/db.rs + src/handlers.rs) ──────────────────────────

/-- A cached value: the stored string either deserializes into a
`ResolveResponse` or is corrupt. -/
inductive CacheVal where
  | good : ResolveResponse → CacheVal
  | corrupt : CacheVal
deriving DecidableEq

/-- The key-value cache store. -/
def Cache : Type := String → Option CacheVal

def cacheGet (c : Cache) (k : String) : Option CacheVal := c k

def cacheSet (c : Cache) (k : String) (v : CacheVal) : Cache :=
  fun k' => if k' = k then some v else c k'

def cacheDel (c : Cache) (k : String) : Cache :=
  fun k' => if k' = k then none else c k'

/-- Transient cache-fault oracle: whether the GET / SET_EX / DEL calls issued
by one request error out (connection loss, timeout). -/
structure CacheEnv where
  getErr : Bool
  setErr : Bool
  delErr : Bool
deriving DecidableEq, Repr

/-- State record `AppState` (src/db.rs): connection pool, optional cache, optional
registration key. -/
structure AppState where
  pool : Db
  cache : Option Cache
  registry_key : Option String

-- ── Errors (src/error.rs) ─────────────────────────────────────────────────────

/-- Application-level errors (`RegistryError` in src/error.rs).  The
`Database`/`Internal` variants carry store faults that the list model never
produces and are omitted. -/
inductive RegistryError where
  | NotFound : String → RegistryError
  | Conflict : String → RegistryError
  | InvalidDid : String → RegistryError
  | ResourceNotFound : String → RegistryError
  | Duplicate : String → RegistryError
  | Validation : String → RegistryError
  | InvalidSignature : String → RegistryError
  | UnknownAuthor : String → RegistryError
  | AlreadyVoted : RegistryError
  | InvalidVote : RegistryError
deriving DecidableEq, Repr

-- ── Canonical messages (src/auth.rs) ──────────────────────────────────────────

/-- Builder `auth::pattern_message`. -/
def pattern_message (name category pat author_did : String) : String :=
  "sigil-registry:pattern:" ++ name ++ ":" ++ category ++ ":" ++ pat ++ ":" ++ author_did

/-- Builder `auth::policy_message`. -/
def policy_message (tool_name risk_level requires_trust author_did : String) : String :=
  "sigil-registry:policy:" ++ tool_name ++ ":" ++ risk_level ++ ":" ++ requires_trust ++ ":" ++ author_did

/-- Builder `auth::vote_message`. -/
def vote_message (target_type target_id vote voter_did : String) : String :=
  "sigil-registry:vote:" ++ target_type ++ ":" ++ target_id ++ ":" ++ vote ++ ":" ++ voter_did

/-- Oracle type standing for `auth::verify_signature (pk, message, sig)`:
`Except.ok ()` when the Ed25519 signature verifies, `Except.error e`
with the verifier's reason text otherwise. -/
def SigVerify : Type := String → String → String → Except String Unit

-- ── base64url (codec layer; the `base64` crate's URL_SAFE_NO_PAD engine) ──────

/-- Value of one base64url alphabet character. -/
def b64urlCharVal (c : Char) : Option Nat :=
  if 'A' ≤ c ∧ c ≤ 'Z' then some (c.toNat - 65)
  else if 'a' ≤ c ∧ c ≤ 'z' then some (c.toNat - 71)
  else if '0' ≤ c ∧ c ≤ '9' then some (c.toNat + 4)
  else if c = '-' then some 62
  else if c = '_' then some 63
  else none

/-- Modelled from the spec: the codec layer's base64url decode without
padding (the `base64` crate's `URL_SAFE_NO_PAD` engine, an external crate not
under `src/`).  Strict: rejects non-alphabet characters, a trailing group of
one character, and nonzero leftover bits. -/
def b64urlDecodeChars : List Char → Option (List Nat)
  | [] => some []
  | [_] => none
  | [c1, c2] => do
      let v1 ← b64urlCharVal c1
      let v2 ← b64urlCharVal c2
      if v2 % 16 = 0 then some [v1 * 4 + v2 / 16] else none
  | [c1, c2, c3] => do
      let v1 ← b64urlCharVal c1
      let v2 ← b64urlCharVal c2
      let v3 ← b64urlCharVal c3
      if v3 % 4 = 0 then some [v1 * 4 + v2 / 16, v2 % 16 * 16 + v3 / 4] else none
  | c1 :: c2 :: c3 :: c4 :: rest => do
      let v1 ← b64urlCharVal c1
      let v2 ← b64urlCharVal c2
      let v3 ← b64urlCharVal c3
      let v4 ← b64urlCharVal c4
      let tail ← b64urlDecodeChars rest
      some ([v1 * 4 + v2 / 16, v2 % 16 * 16 + v3 / 4, v3 % 4 * 64 + v4] ++ tail)

/-- base64url-no-pad decoding of a string to its byte list. -/
def base64urlDecode (s : String) : Option (List Nat) :=
  b64urlDecodeChars s.data

-- ── DID handlers (src/handlers.rs) ────────────────────────────────────────────

/-- Query `SELECT ... FROM dids WHERE did = $1` (first matching row). -/
def findDid (db : Db) (did : String) : Option DidDocument :=
  db.dids.find? (fun d => d.did == did)

/-- Handler for `GET /resolve/:did` (`resolve_did` in src/handlers.rs).  Returns the
handler result together with the post-state (only the cache can change). -/
def resolve_did (env : CacheEnv) (st : AppState) (did : String) :
    Except RegistryError ResolveResponse × AppState :=
  let cache_key := "did:" ++ did
  -- Cache read: a deserializable hit returns immediately; a GET error,
  -- a miss, a corrupt entry, or no configured cache falls through to the DB.
  let hit : Option ResolveResponse :=
    match st.cache with
    | none => none
    | some c =>
      if env.getErr then none
      else
        match cacheGet c cache_key with
        | some (CacheVal.good r) => some r
        | some CacheVal.corrupt => none
        | none => none
  match hit with
  | some r => (Except.ok r, st)
  | none =>
    match findDid st.pool did with
    | none => (Except.error (RegistryError.NotFound did), st)
    | some row =>
      let resp := toResolveResponse row
      -- Cache write: only active DIDs are cached; SET errors are non-fatal.
      if resp.status == "active" then
        match st.cache with
        | some c =>
          if env.setErr then (Except.ok resp, st)
          else (Except.ok resp,
                { st with cache := some (cacheSet c cache_key (CacheVal.good resp)) })
        | none => (Except.ok resp, st)
      else (Except.ok resp, st)

def didScheme : String := "did:sigil:"

/-- Rust `str::starts_with` on UTF-8 text, as a character-list prefix test. -/
def startsWith (p s : String) : Bool := p.data.isPrefixOf s.data

/-- Handler for `POST /register` (`register_did` in src/handlers.rs).  The success payload
is the `(did, status)` pair of the JSON body. -/
def register_did (now : Nat) (st : AppState) (req : RegisterRequest) :
    Except RegistryError (String × String) × AppState :=
  if !(startsWith didScheme req.did) then
    (Except.error (RegistryError.InvalidDid
      ("DID must start with 'did:sigil:' — got: " ++ req.did)), st)
  else if st.pool.dids.any (fun d => d.did == req.did) then
    (Except.error (RegistryError.Conflict req.did), st)
  else
    let row : DidDocument :=
      { did := req.did
        public_key := req.public_key
        nspace := req.nspace
        label := req.label
        status := "active"
        created_at := now
        updated_at := now
        revoked_at := none }
    (Except.ok (req.did, "active"),
     { st with pool := { st.pool with dids := st.pool.dids ++ [row] } })

/-- Handler for `POST /revoke/:did` (`revoke_did` in src/handlers.rs).  The conditional
`UPDATE ... WHERE did = $1 AND status = 'active'` becomes a map over the
matching rows with `rows_affected = countP`; on success the cache key is
deleted unless the DEL call errors (logged, not surfaced). -/
def revoke_did (env : CacheEnv) (now : Nat) (st : AppState) (did : String) :
    Except RegistryError (String × String) × AppState :=
  let affected := st.pool.dids.countP (fun d => d.did == did && d.status == "active")
  if affected = 0 then
    (Except.error (RegistryError.NotFound did), st)
  else
    let dids' := st.pool.dids.map (fun d =>
      if d.did == did && d.status == "active" then
        { d with status := "revoked", revoked_at := some now, updated_at := now }
      else d)
    let st1 := { st with pool := { st.pool with dids := dids' } }
    let st2 :=
      match st1.cache with
      | some c =>
        if env.delErr then st1
        else { st1 with cache := some (cacheDel c ("did:" ++ did)) }
      | none => st1
    (Except.ok (did, "revoked"), st2)

-- ── Pattern handlers (src/handlers_patterns.rs) ───────────────────────────────

/-- Query `SELECT public_key FROM dids WHERE did = $1 AND status = 'active'`. -/
def activeKey (db : Db) (did : String) : Option String :=
  (db.dids.find? (fun d => d.did == did && d.status == "active")).map
    (fun d => d.public_key)

def valid_categories : List String := ["secret", "pii", "credential", "financial"]

def valid_severities : List String := ["low", "medium", "high", "critical"]

/-- Handler for `POST /patterns` (`create_pattern` in src/handlers_patterns.rs).

`regexOk` stands for `regex::Regex::new(&req.pattern).is_ok()`; the variable
part of the Rust validation messages (the regex / allow-list error text) is
kept as the fixed leading text.  The inserted row's `verified = false`,
`active = true`, zero counters come from the `scanner_patterns` schema
defaults — modelled from the spec (§4.5 step 5, migrations not under `src/`):
"Insert with `verified = false`, `active = true`". -/
def create_pattern (regexOk : String → Bool) (sv : SigVerify) (newId : String)
    (now : Nat) (st : AppState) (req : CreatePatternRequest) :
    Except RegistryError (String × String) × AppState :=
  -- 1. Validate category
  if !(valid_categories.contains req.category) then
    (Except.error (RegistryError.Validation
      ("category must be one of: " ++ String.intercalate (", ") valid_categories)), st)
  else
    -- 2. Validate severity
    let severity := req.severity.getD ("high")
    if !(valid_severities.contains severity) then
      (Except.error (RegistryError.Validation
        ("severity must be one of: " ++ String.intercalate (", ") valid_severities)), st)
    -- 3. Validate the regex compiles
    else if !(regexOk req.pattern) then
      (Except.error (RegistryError.Validation ("invalid regex")), st)
    else
      -- 4. Verify the author DID exists and fetch its public key
      match activeKey st.pool req.author_did with
      | none => (Except.error (RegistryError.UnknownAuthor req.author_did), st)
      | some public_key =>
        -- 5. Verify the Ed25519 signature
        let message := pattern_message req.name req.category req.pattern req.author_did
        match sv public_key message req.signature with
        | Except.error e => (Except.error (RegistryError.InvalidSignature e), st)
        | Except.ok _ =>
          -- 6. Check for duplicate name
          if st.pool.scanner_patterns.any (fun p => p.name == req.name && p.active) then
            (Except.error (RegistryError.Duplicate
              ("Pattern '" ++ req.name ++ "' already exists")), st)
          else
            -- 7. Insert
            let row : ScannerPattern :=
              { id := newId
                name := req.name
                description := req.description
                category := req.category
                pattern := req.pattern
                replacement_hint := req.replacement_hint
                severity := severity
                author_did := some req.author_did
                downloads := 0
                votes_up := 0
                votes_down := 0
                verified := false
                active := true
                created_at := now
                updated_at := now }
            (Except.ok (newId, "pending_review"),
             { st with pool :=
               { st.pool with scanner_patterns := st.pool.scanner_patterns ++ [row] } })

/-- Whether the vote ledger already holds a row for the triple
`(voter_did, target_type, target_id)` — the uniqueness constraint consulted
by `ON CONFLICT ... DO NOTHING`. -/
def hasVote (db : Db) (voter_did target_type target_id : String) : Bool :=
  db.registry_votes.any (fun v =>
    v.voter_did == voter_did && v.target_type == target_type && v.target_id == target_id)

/-- Handler for `POST /patterns/:id/vote` (`vote_pattern` in src/handlers_patterns.rs).
The success payload is the `(id, vote, recorded)` JSON body. -/
def vote_pattern (sv : SigVerify) (now : Nat) (st : AppState) (id : String)
    (req : VoteRequest) :
    Except RegistryError (String × String × Bool) × AppState :=
  -- Validate vote direction
  if req.vote != "up" && req.vote != "down" then
    (Except.error RegistryError.InvalidVote, st)
  else
    -- Verify the voter DID exists
    match activeKey st.pool req.voter_did with
    | none => (Except.error (RegistryError.UnknownAuthor req.voter_did), st)
    | some public_key =>
      -- Verify signature
      let message := vote_message ("pattern") id req.vote req.voter_did
      match sv public_key message req.signature with
      | Except.error e => (Except.error (RegistryError.InvalidSignature e), st)
      | Except.ok _ =>
        -- Check pattern exists
        if !(st.pool.scanner_patterns.any (fun p => p.id == id && p.active)) then
          (Except.error (RegistryError.ResourceNotFound
            ("Pattern " ++ id ++ " not found")), st)
        -- Record vote (unique constraint prevents double-voting)
        else if hasVote st.pool req.voter_did ("pattern") id then
          (Except.error RegistryError.AlreadyVoted, st)
        else
          let vrow : VoteRow :=
            { voter_did := req.voter_did, target_type := "pattern",
              target_id := id, vote := req.vote }
          -- Update the vote counter on the pattern
          let pats' := st.pool.scanner_patterns.map (fun p =>
            if p.id == id then
              if req.vote == "up" then { p with votes_up := p.votes_up + 1, updated_at := now }
              else { p with votes_down := p.votes_down + 1, updated_at := now }
            else p)
          (Except.ok (id, req.vote, true),
           { st with pool :=
             { st.pool with
                 registry_votes := st.pool.registry_votes ++ [vrow]
                 scanner_patterns := pats' } })

-- ── Policy handlers (src/handlers_policies.rs) ────────────────────────────────

def valid_risks : List String := ["low", "medium", "high", "critical"]

def valid_trusts : List String := ["Low", "Medium", "High"]

/-- Handler for `POST /policies` (`create_policy` in src/handlers_policies.rs).  The
inserted row's `verified = false`, `active = true`, zero counters come from
the schema defaults — modelled from the spec (§4.5 step 5, migrations not
under `src/`). -/
def create_policy (sv : SigVerify) (newId : String) (now : Nat) (st : AppState)
    (req : CreatePolicyRequest) :
    Except RegistryError (String × String) × AppState :=
  -- 1. Validate risk level
  if !(valid_risks.contains req.risk_level) then
    (Except.error (RegistryError.Validation
      ("risk_level must be one of: " ++ String.intercalate (", ") valid_risks)), st)
  -- 2. Validate requires_trust
  else if !(valid_trusts.contains req.requires_trust) then
    (Except.error (RegistryError.Validation
      ("requires_trust must be one of: " ++ String.intercalate (", ") valid_trusts)), st)
  -- 3. Validate tool_name is non-empty
  else if req.tool_name.trim.isEmpty then
    (Except.error (RegistryError.Validation ("tool_name must not be empty")), st)
  else
    -- 4. Verify the author DID exists and fetch its public key
    match activeKey st.pool req.author_did with
    | none => (Except.error (RegistryError.UnknownAuthor req.author_did), st)
    | some public_key =>
      -- 5. Verify Ed25519 signature
      let message := policy_message req.tool_name req.risk_level req.requires_trust req.author_did
      match sv public_key message req.signature with
      | Except.error e => (Except.error (RegistryError.InvalidSignature e), st)
      | Except.ok _ =>
        -- 6. Insert (no duplicate check: multiple policies per tool allowed)
        let row : SecurityPolicy :=
          { id := newId
            tool_name := req.tool_name
            risk_level := req.risk_level
            requires_trust := req.requires_trust
            requires_confirmation := req.requires_confirmation.getD false
            rationale := req.rationale
            author_did := some req.author_did
            votes_up := 0
            votes_down := 0
            verified := false
            active := true
            created_at := now
            updated_at := now }
        (Except.ok (newId, "pending_review"),
         { st with pool :=
           { st.pool with security_policies := st.pool.security_policies ++ [row] } })

/-- Handler for `POST /policies/:id/vote` (`vote_policy` in src/handlers_policies.rs). -/
def vote_policy (sv : SigVerify) (now : Nat) (st : AppState) (id : String)
    (req : VoteRequest) :
    Except RegistryError (String × String × Bool) × AppState :=
  if req.vote != "up" && req.vote != "down" then
    (Except.error RegistryError.InvalidVote, st)
  else
    match activeKey st.pool req.voter_did with
    | none => (Except.error (RegistryError.UnknownAuthor req.voter_did), st)
    | some public_key =>
      let message := vote_message ("policy") id req.vote req.voter_did
      match sv public_key message req.signature with
      | Except.error e => (Except.error (RegistryError.InvalidSignature e), st)
      | Except.ok _ =>
        if !(st.pool.security_policies.any (fun p => p.id == id && p.active)) then
          (Except.error (RegistryError.ResourceNotFound
            ("Policy " ++ id ++ " not found")), st)
        else if hasVote st.pool req.voter_did ("policy") id then
          (Except.error RegistryError.AlreadyVoted, st)
        else
          let vrow : VoteRow :=
            { voter_did := req.voter_did, target_type := "policy",
              target_id := id, vote := req.vote }
          let pols' := st.pool.security_policies.map (fun p =>
            if p.id == id then
              if req.vote == "up" then { p with votes_up := p.votes_up + 1, updated_at := now }
              else { p with votes_down := p.votes_down + 1, updated_at := now }
            else p)
          (Except.ok (id, req.vote, true),
           { st with pool :=
             { st.pool with
                 registry_votes := st.pool.registry_votes ++ [vrow]
                 security_policies := pols' } })

-- ── List queries (src/handlers_patterns.rs, src/handlers_policies.rs) ─────────

/-- Pagination `LIMIT $l OFFSET $o` over an ordered result set (nonnegative arguments in
all reachable calls; negative values clamp to zero). -/
def sqlPage {α : Type} (offset limit : Int) (l : List α) : List α :=
  (l.drop offset.toNat).take limit.toNat

/-- Ordering `ORDER BY votes_up DESC, downloads DESC` as a merge-sort comparator. -/
def patLe (a b : ScannerPattern) : Bool :=
  decide (b.votes_up < a.votes_up) ||
    (a.votes_up == b.votes_up && decide (b.downloads ≤ a.downloads))

/-- Handler for `GET /patterns` (`list_patterns` in src/handlers_patterns.rs): four filter
branches, all ordered by `votes_up DESC, downloads DESC`. -/
def list_patterns (st : AppState) (q : PatternQuery) : List ScannerPattern :=
  let limit := min (q.limit.getD 50) 200
  let offset := q.offset.getD 0
  let rows :=
    match q.category, q.verified with
    | some cat, some v =>
      st.pool.scanner_patterns.filter (fun p => p.active && p.category == cat && p.verified == v)
    | some cat, none =>
      st.pool.scanner_patterns.filter (fun p => p.active && p.category == cat)
    | none, some v =>
      st.pool.scanner_patterns.filter (fun p => p.active && p.verified == v)
    | none, none =>
      st.pool.scanner_patterns.filter (fun p => p.active)
  sqlPage offset limit (List.mergeSort rows patLe)

/-- Ordering `ORDER BY verified DESC, votes_up DESC` as a merge-sort comparator. -/
def polLeVer (a b : SecurityPolicy) : Bool :=
  (a.verified && !b.verified) ||
    (a.verified == b.verified && decide (b.votes_up ≤ a.votes_up))

/-- Ordering `ORDER BY votes_up DESC` as a merge-sort comparator. -/
def polLeUp (a b : SecurityPolicy) : Bool :=
  decide (b.votes_up ≤ a.votes_up)

/-- Handler for `GET /policies` (`list_policies` in src/handlers_policies.rs): the Rust
`match` over `(tool_name, risk_level, verified)`; note that the two
verified-filtered branches order by `votes_up DESC` alone while the others
order by `verified DESC, votes_up DESC`, and that every combination
involving `risk_level` together with another filter falls into the
catch-all unfiltered branch. -/
def list_policies (st : AppState) (q : PolicyQuery) : List SecurityPolicy :=
  let limit := min (q.limit.getD 50) 200
  let offset := q.offset.getD 0
  match q.tool_name, q.risk_level, q.verified with
  | some tool, none, none =>
    sqlPage offset limit (List.mergeSort
      (st.pool.security_policies.filter (fun p => p.active && p.tool_name == tool)) polLeVer)
  | none, some risk, none =>
    sqlPage offset limit (List.mergeSort
      (st.pool.security_policies.filter (fun p => p.active && p.risk_level == risk)) polLeVer)
  | none, none, some v =>
    sqlPage offset limit (List.mergeSort
      (st.pool.security_policies.filter (fun p => p.active && p.verified == v)) polLeUp)
  | some tool, none, some v =>
    sqlPage offset limit (List.mergeSort
      (st.pool.security_policies.filter
        (fun p => p.active && p.tool_name == tool && p.verified == v)) polLeUp)
  | _, _, _ =>
    sqlPage offset limit (List.mergeSort
      (st.pool.security_policies.filter (fun p => p.active)) polLeVer)

-- ── Spec-side definitions and derived observations ────────────────────────────

/-- Spec-side (§4.4 step 2): the direct Identity Directory lookup that
`resolve` must agree with whenever the cache does not serve a valid hit —
the stored record, or `NotFound` if absent. -/
def directoryLookup (db : Db) (did : String) : Except RegistryError ResolveResponse :=
  match findDid db did with
  | some row => Except.ok (toResolveResponse row)
  | none => Except.error (RegistryError.NotFound did)

/-- The cache serves a valid hit for `did`: a cache is configured, the read
does not error, and the stored entry deserializes. -/
def servesValidHit (env : CacheEnv) (st : AppState) (did : String) : Prop :=
  env.getErr = false ∧
    ∃ c, st.cache = some c ∧ ∃ r, cacheGet c ("did:" ++ did) = some (CacheVal.good r)

/-- The `(votes_up, votes_down)` tallies of the first stored pattern with the
given id. -/
def patTallies (db : Db) (id : String) : Option (Int × Int) :=
  (db.scanner_patterns.find? (fun p => p.id == id)).map (fun p => (p.votes_up, p.votes_down))

/-- The `(votes_up, votes_down)` tallies of the first stored policy with the
given id. -/
def polTallies (db : Db) (id : String) : Option (Int × Int) :=
  (db.security_policies.find? (fun p => p.id == id)).map (fun p => (p.votes_up, p.votes_down))

/-- Relation: `a` may precede `b` under `votes_up DESC, downloads DESC`. -/
def patOrdered (a b : ScannerPattern) : Prop :=
  b.votes_up < a.votes_up ∨ (a.votes_up = b.votes_up ∧ b.downloads ≤ a.downloads)

/-- Relation: `a` may precede `b` under `verified DESC, votes_up DESC`. -/
def polOrderedVer (a b : SecurityPolicy) : Prop :=
  (a.verified = true ∧ b.verified = false) ∨
    (a.verified = b.verified ∧ b.votes_up ≤ a.votes_up)

/-- Relation: `a` may precede `b` under `votes_up DESC`. -/
def polOrderedUp (a b : SecurityPolicy) : Prop :=
  b.votes_up ≤ a.votes_up

-- ── Helper lemmas ─────────────────────────────────────────────────────────────

/-- Without a valid cache hit, `resolve_did` returns exactly the direct
directory lookup. -/
theorem resolve_fst_eq_directoryLookup (env : CacheEnv) (st : AppState) (did : String)
    (h : ¬ servesValidHit env st did) :
    (resolve_did env st did).1 = directoryLookup st.pool did := by
  unfold resolve_did directoryLookup
  rcases hca : st.cache with _ | c
  · simp only [hca]
    rcases hdb : findDid st.pool did with _ | row
    · simp [hdb]
    · simp only [hdb]
      cases hst : ((toResolveResponse row).status == "active") <;>
        simp [hca, hst]
  · cases hge : env.getErr
    · rcases hcg : cacheGet c ("did:" ++ did) with _ | v
      · simp only [hca, hge, Bool.false_eq_true, if_false, hcg]
        rcases hdb : findDid st.pool did with _ | row
        · simp [hdb]
        · simp only [hdb]
          cases hst : ((toResolveResponse row).status == "active") <;>
            cases hse : env.setErr <;> simp [hca, hst, hse]
      · cases v with
        | good r => exact absurd ⟨hge, c, hca, r, hcg⟩ h
        | corrupt =>
          simp only [hca, hge, Bool.false_eq_true, if_false, hcg]
          rcases hdb : findDid st.pool did with _ | row
          · simp [hdb]
          · simp only [hdb]
            cases hst : ((toResolveResponse row).status == "active") <;>
              cases hse : env.setErr <;> simp [hca, hst, hse]
    · simp only [hca, hge, if_true]
      rcases hdb : findDid st.pool did with _ | row
      · simp [hdb]
      · simp only [hdb]
        cases hst : ((toResolveResponse row).status == "active") <;>
          cases hse : env.setErr <;> simp [hca, hst, hse]

/-- With a valid cache hit, `resolve_did` returns that cached record. -/
theorem resolve_hit_ok (env : CacheEnv) (st : AppState) (did : String)
    (h : servesValidHit env st did) :
    ∃ r, (resolve_did env st did).1 = Except.ok r := by
  obtain ⟨hge, c, hca, r, hcg⟩ := h
  refine ⟨r, ?_⟩
  unfold resolve_did
  simp only [hca, hge, hcg, Bool.false_eq_true, if_false]

/-- The only error `resolve_did` ever returns is `NotFound` for the requested
identity — cache faults never surface. -/
theorem resolve_error_is_notFound (env : CacheEnv) (st : AppState) (did : String)
    (e : RegistryError) (h : (resolve_did env st did).1 = Except.error e) :
    e = RegistryError.NotFound did := by
  by_cases hv : servesValidHit env st did
  · obtain ⟨r, hr⟩ := resolve_hit_ok env st did hv
    simp [h] at hr
  · have heq := resolve_fst_eq_directoryLookup env st did hv
    rw [h] at heq
    unfold directoryLookup at heq
    rcases hdb : findDid st.pool did with _ | row
    · simp only [hdb, Except.error.injEq] at heq
      exact heq
    · simp only [hdb] at heq
      cases heq

theorem cacheGet_del_self (c : Cache) (k : String) :
    cacheGet (cacheDel c k) k = none := by
  simp [cacheGet, cacheDel]

/-- Shape of `revoke_did`: either the not-found reply with an unchanged
state, or success with every matching active row flipped to revoked and
(when the DEL call succeeds) the cache key removed. -/
theorem revoke_shape (env : CacheEnv) (now : Nat) (st : AppState) (did : String) :
    revoke_did env now st did = (Except.error (RegistryError.NotFound did), st) ∨
    ((revoke_did env now st did).1 = Except.ok (did, "revoked") ∧
     (revoke_did env now st did).2.pool.dids = st.pool.dids.map (fun d =>
        if d.did == did && d.status == "active" then
          { d with status := "revoked", revoked_at := some now, updated_at := now }
        else d) ∧
     (env.delErr = false →
       (revoke_did env now st did).2.cache = none ∨
         ∃ c', (revoke_did env now st did).2.cache = some c' ∧
           cacheGet c' ("did:" ++ did) = none)) := by
  rcases hc : st.cache with _ | c
  · simp only [revoke_did, hc]
    split
    · exact Or.inl rfl
    · exact Or.inr ⟨rfl, rfl, fun _ => Or.inl rfl⟩
  · cases hd : env.delErr
    · simp only [revoke_did, hc, hd, Bool.false_eq_true, if_false]
      split
      · exact Or.inl rfl
      · exact Or.inr ⟨rfl, rfl, fun _ => Or.inr ⟨_, rfl, cacheGet_del_self c _⟩⟩
    · simp only [revoke_did, hc, hd, if_true]
      split
      · exact Or.inl rfl
      · exact Or.inr ⟨rfl, rfl, fun hfalse => absurd hfalse (by decide)⟩

/-- State after a successful revoke: every matching active row is flipped to
revoked, and (when the DEL call succeeds) the cache no longer holds the
identity's key. -/
theorem revoke_ok_state (env : CacheEnv) (now : Nat) (st : AppState) (did : String)
    (o : String × String) (st' : AppState)
    (h : revoke_did env now st did = (Except.ok o, st')) :
    st'.pool.dids = st.pool.dids.map (fun d =>
      if d.did == did && d.status == "active" then
        { d with status := "revoked", revoked_at := some now, updated_at := now }
      else d) ∧
    (env.delErr = false →
      st'.cache = none ∨
        ∃ c', st'.cache = some c' ∧ cacheGet c' ("did:" ++ did) = none) := by
  rcases revoke_shape env now st did with hnf | ⟨-, h2, h3⟩
  · rw [hnf] at h
    exact absurd h (by simp)
  · have hst : st' = (revoke_did env now st did).2 := by rw [h]
    subst hst
    exact ⟨h2, h3⟩

/-- Revoke of an identity with no currently-active row returns `NotFound` and
changes nothing. -/
theorem revoke_notFound_of_no_active (env : CacheEnv) (now : Nat) (st : AppState)
    (did : String)
    (h : st.pool.dids.any (fun d => d.did == did && d.status == "active") = false) :
    revoke_did env now st did = (Except.error (RegistryError.NotFound did), st) := by
  have hz : st.pool.dids.countP (fun d => d.did == did && d.status == "active") = 0 :=
    List.countP_eq_zero.mpr (by
      intro a ha
      have := List.any_eq_false.mp h a ha
      simpa using this)
  unfold revoke_did
  rw [if_pos hz]

/-- Revoke of an identity with a currently-active row succeeds. -/
theorem revoke_ok_of_active (env : CacheEnv) (now : Nat) (st : AppState) (did : String)
    (h : st.pool.dids.any (fun d => d.did == did && d.status == "active") = true) :
    ∃ st', revoke_did env now st did = (Except.ok (did, "revoked"), st') := by
  have hp : 0 < st.pool.dids.countP (fun d => d.did == did && d.status == "active") := by
    obtain ⟨a, ha, hpa⟩ := List.any_eq_true.mp h
    exact List.countP_pos_iff.mpr ⟨a, ha, hpa⟩
  unfold revoke_did
  rw [if_neg (Nat.pos_iff_ne_zero.mp hp)]
  exact ⟨_, rfl⟩

/-- After a successful revoke no stored row of that identity is active. -/
theorem revoke_post_not_active (env : CacheEnv) (now : Nat) (st : AppState)
    (did : String) (o : String × String) (st' : AppState)
    (h : revoke_did env now st did = (Except.ok o, st')) :
    ∀ d ∈ st'.pool.dids, (d.did == did && d.status == "active") = false := by
  obtain ⟨hdids, -⟩ := revoke_ok_state env now st did o st' h
  intro d hd
  rw [hdids] at hd
  obtain ⟨d0, hd0, hmap⟩ := List.mem_map.mp hd
  by_cases hcond : (d0.did == did && d0.status == "active") = true
  · rw [if_pos hcond] at hmap
    subst hmap
    simp
  · rw [if_neg hcond] at hmap
    subst hmap
    exact Bool.not_eq_true _ ▸ Bool.eq_false_iff.mpr hcond

-- ── C4 ────────────────────────────────────────────────────────────────────────

/-- C4: whenever the cache does not serve a valid hit (cache disabled, miss,
read error, corrupted entry — and, the environment being arbitrary, cache
write failure), `resolve_did` returns exactly the direct Identity Directory
lookup; and no cache failure is ever surfaced as an error — the only error
the resolver returns is `NotFound` for the requested identity. -/
theorem C4_resolve_refines_directory_lookup :
    (∀ (env : CacheEnv) (st : AppState) (did : String),
        ¬ servesValidHit env st did →
        (resolve_did env st did).1 = directoryLookup st.pool did) ∧
    (∀ (env : CacheEnv) (st : AppState) (did : String) (e : RegistryError),
        (resolve_did env st did).1 = Except.error e →
        e = RegistryError.NotFound did) :=
  ⟨resolve_fst_eq_directoryLookup, resolve_error_is_notFound⟩

def aliceDoc : DidDocument :=
  { did := "did:sigil:alice", public_key := "QUFB", nspace := "alice",
    label := none, status := "active", created_at := 0, updated_at := 0,
    revoked_at := none }

def stC4 : AppState :=
  { pool := { dids := [aliceDoc], scanner_patterns := [],
              security_policies := [], registry_votes := [] },
    cache := none, registry_key := none }

def envAllOk : CacheEnv := { getErr := false, setErr := false, delErr := false }

/-- Witness for C4 at a concrete cacheless state. -/
theorem C4_witness :
    (resolve_did envAllOk stC4 ("did:sigil:alice")).1 =
      directoryLookup stC4.pool ("did:sigil:alice") ∧
    Except.ok (toResolveResponse aliceDoc) =
      directoryLookup stC4.pool ("did:sigil:alice") :=
  ⟨C4_resolve_refines_directory_lookup.1 envAllOk stC4 ("did:sigil:alice")
      (fun h => by
        obtain ⟨-, c, hc, -⟩ := h
        exact Option.noConfusion hc),
    by rfl⟩

-- ── C2 ────────────────────────────────────────────────────────────────────────

/-- C2: after a successful revoke whose cache-DEL call succeeds, an
immediately following resolution of that identity never reports
`status = "active"`, whatever the cache held beforehand and whatever faults
the resolution's own cache calls hit. -/
theorem C2_revoke_then_resolve_never_active
    (env1 env2 : CacheEnv) (now : Nat) (st : AppState) (did : String)
    (o : String × String) (st' : AppState)
    (hdel : env1.delErr = false)
    (hrev : revoke_did env1 now st did = (Except.ok o, st'))
    (r : ResolveResponse) (hres : (resolve_did env2 st' did).1 = Except.ok r) :
    r.status ≠ "active" := by
  obtain ⟨hdids, hcache⟩ := revoke_ok_state env1 now st did o st' hrev
  have hnohit : ¬ servesValidHit env2 st' did := by
    rintro ⟨-, c, hc, r0, hcg⟩
    rcases hcache hdel with hnone | ⟨c', hc', hget⟩
    · rw [hnone] at hc
      cases hc
    · rw [hc'] at hc
      injection hc with hcc
      rw [← hcc, hget] at hcg
      cases hcg
  rw [resolve_fst_eq_directoryLookup env2 st' did hnohit] at hres
  unfold directoryLookup at hres
  rcases hdb : findDid st'.pool did with _ | row
  · rw [hdb] at hres
    cases hres
  · rw [hdb] at hres
    injection hres with h1
    have hmem := List.mem_of_find?_eq_some hdb
    have hnot := revoke_post_not_active env1 now st did o st' hrev row hmem
    have hdid : (row.did == did) = true := by simpa using List.find?_some hdb
    rw [hdid, Bool.true_and] at hnot
    have : row.status ≠ "active" := by simpa using hnot
    rw [← h1]
    exact this

def cacheC2 : Cache :=
  fun k => if k = "did:" ++ "did:sigil:alice"
    then some (CacheVal.good (toResolveResponse aliceDoc)) else none

def stC2 : AppState :=
  { pool := { dids := [aliceDoc], scanner_patterns := [],
              security_policies := [], registry_votes := [] },
    cache := some cacheC2, registry_key := none }

def respRevokedC2 : ResolveResponse :=
  toResolveResponse
    { aliceDoc with status := "revoked", revoked_at := some 1, updated_at := 1 }

/-- Witness for C2: a cache pre-populated with the active record, then
revoke, then resolve — the resolution observes `revoked`. -/
theorem C2_witness :
    (resolve_did envAllOk (revoke_did envAllOk 1 stC2 ("did:sigil:alice")).2
        ("did:sigil:alice")).1 = Except.ok respRevokedC2 ∧
    respRevokedC2.status ≠ "active" := by
  refine ⟨by rfl, ?_⟩
  exact C2_revoke_then_resolve_never_active envAllOk envAllOk 1 stC2
    ("did:sigil:alice") (("did:sigil:alice"), ("revoked"))
    (revoke_did envAllOk 1 stC2 ("did:sigil:alice")).2 rfl (by rfl)
    respRevokedC2 (by rfl)

-- ── C6 ────────────────────────────────────────────────────────────────────────

/-- C6: revoke succeeds exactly when an active row with that identity exists;
otherwise (nonexistent or already revoked) it returns `NotFound` and changes
nothing; hence a second revoke immediately after a successful one always
returns `NotFound`, never success. -/
theorem C6_revoke_succeeds_iff_active :
    (∀ (env : CacheEnv) (now : Nat) (st : AppState) (did : String),
        st.pool.dids.any (fun d => d.did == did && d.status == "active") = true →
        ∃ st', revoke_did env now st did = (Except.ok (did, "revoked"), st')) ∧
    (∀ (env : CacheEnv) (now : Nat) (st : AppState) (did : String),
        st.pool.dids.any (fun d => d.did == did && d.status == "active") = false →
        revoke_did env now st did = (Except.error (RegistryError.NotFound did), st)) ∧
    (∀ (env env' : CacheEnv) (now now' : Nat) (st : AppState) (did : String)
        (o : String × String) (st' : AppState),
        revoke_did env now st did = (Except.ok o, st') →
        revoke_did env' now' st' did =
          (Except.error (RegistryError.NotFound did), st')) := by
  refine ⟨revoke_ok_of_active, revoke_notFound_of_no_active, ?_⟩
  intro env env' now now' st did o st' h
  exact revoke_notFound_of_no_active env' now' st' did
    (List.any_eq_false.mpr (by
      intro d hd
      simpa using revoke_post_not_active env now st did o st' h d hd))

/-- Witness for C6: revoking an active identity succeeds, revoking it again
immediately afterwards returns `NotFound`. -/
theorem C6_witness :
    (∃ st', revoke_did envAllOk 0 stC4 ("did:sigil:alice") =
        (Except.ok (("did:sigil:alice"), ("revoked")), st')) ∧
    revoke_did envAllOk 0 (revoke_did envAllOk 0 stC4 ("did:sigil:alice")).2
        ("did:sigil:alice") =
      (Except.error (RegistryError.NotFound ("did:sigil:alice")),
        (revoke_did envAllOk 0 stC4 ("did:sigil:alice")).2) :=
  ⟨C6_revoke_succeeds_iff_active.1 envAllOk 0 stC4 ("did:sigil:alice") (by decide),
   C6_revoke_succeeds_iff_active.2.2 envAllOk envAllOk 0 0 stC4 ("did:sigil:alice")
     (("did:sigil:alice"), ("revoked")) (revoke_did envAllOk 0 stC4 ("did:sigil:alice")).2
     rfl⟩

/-- Searching by id over a map that preserves pattern ids factors through the
map. -/
theorem find?_id_map_pat (f : ScannerPattern → ScannerPattern)
    (hf : ∀ p, (f p).id = p.id) (l : List ScannerPattern) (id : String) :
    (l.map f).find? (fun p => p.id == id) = (l.find? (fun p => p.id == id)).map f := by
  rw [List.find?_map]
  have hpred : ((fun p => p.id == id) ∘ f) = (fun p => p.id == id) := by
    funext p
    simp [Function.comp, hf]
  rw [hpred]

/-- Searching by id over a map that preserves policy ids factors through the
map. -/
theorem find?_id_map_pol (f : SecurityPolicy → SecurityPolicy)
    (hf : ∀ p, (f p).id = p.id) (l : List SecurityPolicy) (id : String) :
    (l.map f).find? (fun p => p.id == id) = (l.find? (fun p => p.id == id)).map f := by
  rw [List.find?_map]
  have hpred : ((fun p => p.id == id) ∘ f) = (fun p => p.id == id) := by
    funext p
    simp [Function.comp, hf]
  rw [hpred]

/-- Behaviour of `vote_pattern` for a registered active voter with a valid
signature on an existing active pattern: fresh ledger triple ⇒ recorded and
exactly the matching tally bumped; existing ledger triple ⇒ `AlreadyVoted`
and a completely unchanged state. -/
theorem vote_pattern_spec (sv : SigVerify) (now : Nat) (st : AppState) (id : String)
    (req : VoteRequest) (pk : String)
    (hdir : req.vote = "up" ∨ req.vote = "down")
    (hkey : activeKey st.pool req.voter_did = some pk)
    (hsig : sv pk (vote_message ("pattern") id req.vote req.voter_did) req.signature =
      Except.ok ())
    (hex : st.pool.scanner_patterns.any (fun p => p.id == id && p.active) = true) :
    (hasVote st.pool req.voter_did ("pattern") id = false →
      (vote_pattern sv now st id req).1 = Except.ok (id, req.vote, true) ∧
      patTallies (vote_pattern sv now st id req).2.pool id =
        (patTallies st.pool id).map
          (fun t => if req.vote = "up" then (t.1 + 1, t.2) else (t.1, t.2 + 1)) ∧
      hasVote (vote_pattern sv now st id req).2.pool req.voter_did ("pattern") id = true) ∧
    (hasVote st.pool req.voter_did ("pattern") id = true →
      (vote_pattern sv now st id req).1 = Except.error RegistryError.AlreadyVoted ∧
      (vote_pattern sv now st id req).2 = st) := by
  have hne : (req.vote != "up" && req.vote != "down") = false := by
    rcases hdir with h | h <;> simp [h]
  constructor
  · intro hnv
    have hred : vote_pattern sv now st id req =
        (Except.ok (id, req.vote, true),
         { st with pool :=
           { st.pool with
               registry_votes := st.pool.registry_votes ++
                 [{ voter_did := req.voter_did, target_type := "pattern",
                    target_id := id, vote := req.vote }]
               scanner_patterns := st.pool.scanner_patterns.map (fun p =>
                 if p.id == id then
                   if req.vote == "up" then
                     { p with votes_up := p.votes_up + 1, updated_at := now }
                   else { p with votes_down := p.votes_down + 1, updated_at := now }
                 else p) } }) := by
      simp only [vote_pattern, hne, Bool.false_eq_true, if_false, hkey, hsig, hex,
        Bool.not_true, hnv]
    rw [hred]
    refine ⟨rfl, ?_, ?_⟩
    · simp only [patTallies]
      rw [find?_id_map_pat _ (fun p => by split <;> (try split) <;> rfl)]
      cases hfind : st.pool.scanner_patterns.find? (fun p => p.id == id) with
      | none => rfl
      | some p0 =>
        have heq : p0.id = id := by
          simpa using List.find?_some hfind
        rcases hdir with h | h <;>
          simp [heq, h]
    · simp only [hasVote]
      rw [List.any_append]
      simp
  · intro hv
    have hred : vote_pattern sv now st id req = (Except.error RegistryError.AlreadyVoted, st) := by
      simp only [vote_pattern, hne, Bool.false_eq_true, if_false, hkey, hsig, hex,
        Bool.not_true, hv, if_true]
    rw [hred]
    exact ⟨rfl, rfl⟩

/-- Behaviour of `vote_policy`, mirroring `vote_pattern_spec`. -/
theorem vote_policy_spec (sv : SigVerify) (now : Nat) (st : AppState) (id : String)
    (req : VoteRequest) (pk : String)
    (hdir : req.vote = "up" ∨ req.vote = "down")
    (hkey : activeKey st.pool req.voter_did = some pk)
    (hsig : sv pk (vote_message ("policy") id req.vote req.voter_did) req.signature =
      Except.ok ())
    (hex : st.pool.security_policies.any (fun p => p.id == id && p.active) = true) :
    (hasVote st.pool req.voter_did ("policy") id = false →
      (vote_policy sv now st id req).1 = Except.ok (id, req.vote, true) ∧
      polTallies (vote_policy sv now st id req).2.pool id =
        (polTallies st.pool id).map
          (fun t => if req.vote = "up" then (t.1 + 1, t.2) else (t.1, t.2 + 1)) ∧
      hasVote (vote_policy sv now st id req).2.pool req.voter_did ("policy") id = true) ∧
    (hasVote st.pool req.voter_did ("policy") id = true →
      (vote_policy sv now st id req).1 = Except.error RegistryError.AlreadyVoted ∧
      (vote_policy sv now st id req).2 = st) := by
  have hne : (req.vote != "up" && req.vote != "down") = false := by
    rcases hdir with h | h <;> simp [h]
  constructor
  · intro hnv
    have hred : vote_policy sv now st id req =
        (Except.ok (id, req.vote, true),
         { st with pool :=
           { st.pool with
               registry_votes := st.pool.registry_votes ++
                 [{ voter_did := req.voter_did, target_type := "policy",
                    target_id := id, vote := req.vote }]
               security_policies := st.pool.security_policies.map (fun p =>
                 if p.id == id then
                   if req.vote == "up" then
                     { p with votes_up := p.votes_up + 1, updated_at := now }
                   else { p with votes_down := p.votes_down + 1, updated_at := now }
                 else p) } }) := by
      simp only [vote_policy, hne, Bool.false_eq_true, if_false, hkey, hsig, hex,
        Bool.not_true, hnv]
    rw [hred]
    refine ⟨rfl, ?_, ?_⟩
    · simp only [polTallies]
      rw [find?_id_map_pol _ (fun p => by split <;> (try split) <;> rfl)]
      cases hfind : st.pool.security_policies.find? (fun p => p.id == id) with
      | none => rfl
      | some p0 =>
        have heq : p0.id = id := by
          simpa using List.find?_some hfind
        rcases hdir with h | h <;>
          simp [heq, h]
    · simp only [hasVote]
      rw [List.any_append]
      simp
  · intro hv
    have hred : vote_policy sv now st id req = (Except.error RegistryError.AlreadyVoted, st) := by
      simp only [vote_policy, hne, Bool.false_eq_true, if_false, hkey, hsig, hex,
        Bool.not_true, hv, if_true]
    rw [hred]
    exact ⟨rfl, rfl⟩

-- ── C1 ────────────────────────────────────────────────────────────────────────

/-- C1: for a vote by a registered active voter with a valid signature on an
existing active target (pattern or policy): with no ledger row for the triple
(voter, kind, target) the vote succeeds, records the ledger row and
increments exactly the tally matching the direction by one; with an existing
row (either direction) it returns `AlreadyVoted` and mutates nothing. -/
theorem C1_vote_idempotence :
    (∀ (sv : SigVerify) (now : Nat) (st : AppState) (id : String)
        (req : VoteRequest) (pk : String),
      req.vote = "up" ∨ req.vote = "down" →
      activeKey st.pool req.voter_did = some pk →
      sv pk (vote_message ("pattern") id req.vote req.voter_did) req.signature =
        Except.ok () →
      st.pool.scanner_patterns.any (fun p => p.id == id && p.active) = true →
      (hasVote st.pool req.voter_did ("pattern") id = false →
        (vote_pattern sv now st id req).1 = Except.ok (id, req.vote, true) ∧
        patTallies (vote_pattern sv now st id req).2.pool id =
          (patTallies st.pool id).map
            (fun t => if req.vote = "up" then (t.1 + 1, t.2) else (t.1, t.2 + 1)) ∧
        hasVote (vote_pattern sv now st id req).2.pool req.voter_did ("pattern") id
          = true) ∧
      (hasVote st.pool req.voter_did ("pattern") id = true →
        (vote_pattern sv now st id req).1 = Except.error RegistryError.AlreadyVoted ∧
        (vote_pattern sv now st id req).2 = st)) ∧
    (∀ (sv : SigVerify) (now : Nat) (st : AppState) (id : String)
        (req : VoteRequest) (pk : String),
      req.vote = "up" ∨ req.vote = "down" →
      activeKey st.pool req.voter_did = some pk →
      sv pk (vote_message ("policy") id req.vote req.voter_did) req.signature =
        Except.ok () →
      st.pool.security_policies.any (fun p => p.id == id && p.active) = true →
      (hasVote st.pool req.voter_did ("policy") id = false →
        (vote_policy sv now st id req).1 = Except.ok (id, req.vote, true) ∧
        polTallies (vote_policy sv now st id req).2.pool id =
          (polTallies st.pool id).map
            (fun t => if req.vote = "up" then (t.1 + 1, t.2) else (t.1, t.2 + 1)) ∧
        hasVote (vote_policy sv now st id req).2.pool req.voter_did ("policy") id
          = true) ∧
      (hasVote st.pool req.voter_did ("policy") id = true →
        (vote_policy sv now st id req).1 = Except.error RegistryError.AlreadyVoted ∧
        (vote_policy sv now st id req).2 = st)) :=
  ⟨vote_pattern_spec, vote_policy_spec⟩

/-- A signature oracle that accepts everything (used to instantiate
hypothetical theorems at concrete inputs). -/
def svOk : SigVerify := fun _ _ _ => Except.ok ()

def patDoc : ScannerPattern :=
  { id := "p1", name := "n", description := none, category := "secret",
    pattern := "x", replacement_hint := none, severity := "high",
    author_did := some ("did:sigil:alice"), downloads := 0, votes_up := 0,
    votes_down := 0, verified := false, active := true,
    created_at := 0, updated_at := 0 }

def stC1 : AppState :=
  { pool := { dids := [aliceDoc], scanner_patterns := [patDoc],
              security_policies := [], registry_votes := [] },
    cache := none, registry_key := none }

def reqUpC1 : VoteRequest :=
  { voter_did := "did:sigil:alice", vote := "up", signature := "s" }

/-- Witness for C1: a first up-vote on a fresh pattern is recorded and bumps
the up-tally from 0 to 1, leaving the down-tally at 0. -/
theorem C1_witness :
    (vote_pattern svOk 0 stC1 ("p1") reqUpC1).1 = Except.ok (("p1"), ("up"), true) ∧
    patTallies (vote_pattern svOk 0 stC1 ("p1") reqUpC1).2.pool ("p1") = some (1, 0) := by
  have h := (C1_vote_idempotence.1 svOk 0 stC1 ("p1") reqUpC1 ("QUFB")
    (Or.inl rfl) rfl rfl (by rfl)).1 (by rfl)
  obtain ⟨h1, h2, -⟩ := h
  refine ⟨h1, ?_⟩
  rw [h2]
  rfl

/-- A request failing one of the three structural validations of
`create_pattern` is rejected with a `Validation` error, leaves the state
unchanged, and the whole outcome is independent of the signature verifier —
verification is never consulted. -/
theorem create_pattern_invalid_reject (regexOk : String → Bool) (sv sv' : SigVerify)
    (newId : String) (now : Nat) (st : AppState) (req : CreatePatternRequest)
    (hbad : valid_categories.contains req.category = false ∨
            valid_severities.contains (req.severity.getD ("high")) = false ∨
            regexOk req.pattern = false) :
    (∃ m, (create_pattern regexOk sv newId now st req).1 =
        Except.error (RegistryError.Validation m)) ∧
    (create_pattern regexOk sv newId now st req).2 = st ∧
    create_pattern regexOk sv newId now st req =
      create_pattern regexOk sv' newId now st req := by
  cases hcat : valid_categories.contains req.category
  · have hmc : req.category ∉ valid_categories := by simpa using hcat
    have hred : ∀ s : SigVerify, create_pattern regexOk s newId now st req =
        (Except.error (RegistryError.Validation
          ("category must be one of: " ++ String.intercalate (", ") valid_categories)),
         st) := by
      intro s
      simp [create_pattern, hmc]
    rw [hred sv, hred sv']
    exact ⟨⟨_, rfl⟩, rfl, rfl⟩
  · have hmc : req.category ∈ valid_categories := by simpa using hcat
    cases hsev : valid_severities.contains (req.severity.getD ("high"))
    · have hms : req.severity.getD ("high") ∉ valid_severities := by simpa using hsev
      have hred : ∀ s : SigVerify, create_pattern regexOk s newId now st req =
          (Except.error (RegistryError.Validation
            ("severity must be one of: " ++ String.intercalate (", ") valid_severities)),
           st) := by
        intro s
        simp [create_pattern, hmc, hms]
      rw [hred sv, hred sv']
      exact ⟨⟨_, rfl⟩, rfl, rfl⟩
    · have hms : req.severity.getD ("high") ∈ valid_severities := by simpa using hsev
      have hrex : regexOk req.pattern = false := by
        rcases hbad with h | h | h
        · rw [hcat] at h
          cases h
        · rw [hsev] at h
          cases h
        · exact h
      have hred : ∀ s : SigVerify, create_pattern regexOk s newId now st req =
          (Except.error (RegistryError.Validation ("invalid regex")), st) := by
        intro s
        simp [create_pattern, hmc, hms, hrex]
      rw [hred sv, hred sv']
      exact ⟨⟨_, rfl⟩, rfl, rfl⟩

/-- A structurally valid pattern submission whose author has no active
identity record is rejected with `UnknownAuthor` and inserts nothing. -/
theorem create_pattern_unknown_author (regexOk : String → Bool) (sv : SigVerify)
    (newId : String) (now : Nat) (st : AppState) (req : CreatePatternRequest)
    (hcat : valid_categories.contains req.category = true)
    (hsev : valid_severities.contains (req.severity.getD ("high")) = true)
    (hrex : regexOk req.pattern = true)
    (hauth : activeKey st.pool req.author_did = none) :
    (create_pattern regexOk sv newId now st req).1 =
      Except.error (RegistryError.UnknownAuthor req.author_did) ∧
    (create_pattern regexOk sv newId now st req).2 = st := by
  have hmc : req.category ∈ valid_categories := by simpa using hcat
  have hms : req.severity.getD ("high") ∈ valid_severities := by simpa using hsev
  have hred : create_pattern regexOk sv newId now st req =
      (Except.error (RegistryError.UnknownAuthor req.author_did), st) := by
    simp [create_pattern, hmc, hms, hrex, hauth]
  rw [hred]
  exact ⟨rfl, rfl⟩

/-- A fully valid pattern submission inserts the row with
`verified = false`, `active = true` and zero counters and reports the new
id as pending review. -/
theorem create_pattern_ok_spec (regexOk : String → Bool) (sv : SigVerify)
    (newId : String) (now : Nat) (st : AppState) (req : CreatePatternRequest)
    (pk : String)
    (hcat : valid_categories.contains req.category = true)
    (hsev : valid_severities.contains (req.severity.getD ("high")) = true)
    (hrex : regexOk req.pattern = true)
    (hkey : activeKey st.pool req.author_did = some pk)
    (hsig : sv pk (pattern_message req.name req.category req.pattern req.author_did)
        req.signature = Except.ok ())
    (hdup : st.pool.scanner_patterns.any (fun p => p.name == req.name && p.active)
        = false) :
    create_pattern regexOk sv newId now st req =
      (Except.ok (newId, "pending_review"),
       { st with pool := { st.pool with scanner_patterns :=
           st.pool.scanner_patterns ++
             [{ id := newId, name := req.name, description := req.description,
                category := req.category, pattern := req.pattern,
                replacement_hint := req.replacement_hint,
                severity := req.severity.getD ("high"),
                author_did := some req.author_did, downloads := 0, votes_up := 0,
                votes_down := 0, verified := false, active := true,
                created_at := now, updated_at := now }] } }) := by
  have hmc : req.category ∈ valid_categories := by simpa using hcat
  have hms : req.severity.getD ("high") ∈ valid_severities := by simpa using hsev
  have hnd : ¬ ∃ x ∈ st.pool.scanner_patterns, x.name = req.name ∧ x.active = true := by
    simpa using hdup
  simp [create_pattern, hmc, hms, hrex, hkey, hsig, hnd]

-- ── C3 ────────────────────────────────────────────────────────────────────────

/-- C3: a pattern submission with an uncompilable expression or an
out-of-allow-list category/severity is rejected with a validation error,
with no database write and no dependence on the signature verifier; a
structurally valid submission whose author is not a registered active
identity is rejected with `UnknownAuthor` and inserts no row. -/
theorem C3_pattern_validation_before_signature :
    (∀ (regexOk : String → Bool) (sv sv' : SigVerify) (newId : String) (now : Nat)
        (st : AppState) (req : CreatePatternRequest),
      (valid_categories.contains req.category = false ∨
       valid_severities.contains (req.severity.getD ("high")) = false ∨
       regexOk req.pattern = false) →
      (∃ m, (create_pattern regexOk sv newId now st req).1 =
          Except.error (RegistryError.Validation m)) ∧
      (create_pattern regexOk sv newId now st req).2 = st ∧
      create_pattern regexOk sv newId now st req =
        create_pattern regexOk sv' newId now st req) ∧
    (∀ (regexOk : String → Bool) (sv : SigVerify) (newId : String) (now : Nat)
        (st : AppState) (req : CreatePatternRequest),
      valid_categories.contains req.category = true →
      valid_severities.contains (req.severity.getD ("high")) = true →
      regexOk req.pattern = true →
      activeKey st.pool req.author_did = none →
      (create_pattern regexOk sv newId now st req).1 =
        Except.error (RegistryError.UnknownAuthor req.author_did) ∧
      (create_pattern regexOk sv newId now st req).2 = st) :=
  ⟨create_pattern_invalid_reject, create_pattern_unknown_author⟩

/-- A regex oracle that rejects everything. -/
def regexNone : String → Bool := fun _ => false

/-- A regex oracle that accepts everything. -/
def regexAll : String → Bool := fun _ => true

/-- A signature oracle that rejects everything. -/
def svErr : SigVerify := fun _ _ _ => Except.error ("boom")

def reqC3a : CreatePatternRequest :=
  { name := "n", description := none, category := "bogus", pattern := "(",
    replacement_hint := none, severity := none,
    author_did := "did:sigil:alice", signature := "s" }

def reqC3b : CreatePatternRequest :=
  { name := "n", description := none, category := "secret", pattern := "a",
    replacement_hint := none, severity := none,
    author_did := "did:sigil:ghost", signature := "s" }

/-- Witness for C3 at concrete requests: a bad category is rejected
identically under accepting and rejecting verifiers, and an unregistered
author is rejected with `UnknownAuthor`. -/
theorem C3_witness :
    ((∃ m, (create_pattern regexNone svOk ("id1") 0 stC1 reqC3a).1 =
        Except.error (RegistryError.Validation m)) ∧
      (create_pattern regexNone svOk ("id1") 0 stC1 reqC3a).2 = stC1 ∧
      create_pattern regexNone svOk ("id1") 0 stC1 reqC3a =
        create_pattern regexNone svErr ("id1") 0 stC1 reqC3a) ∧
    ((create_pattern regexAll svOk ("id1") 0 stC1 reqC3b).1 =
        Except.error (RegistryError.UnknownAuthor ("did:sigil:ghost")) ∧
      (create_pattern regexAll svOk ("id1") 0 stC1 reqC3b).2 = stC1) :=
  ⟨C3_pattern_validation_before_signature.1 regexNone svOk svErr ("id1") 0 stC1 reqC3a
      (Or.inl (by rfl)),
   C3_pattern_validation_before_signature.2 regexAll svOk ("id1") 0 stC1 reqC3b
      rfl rfl rfl rfl⟩

-- ── C5 ────────────────────────────────────────────────────────────────────────

def emptySt : AppState :=
  { pool := { dids := [], scanner_patterns := [], security_policies := [],
              registry_votes := [] },
    cache := none, registry_key := none }

def reqBadKey : RegisterRequest :=
  { did := "did:sigil:mallory", public_key := "!", nspace := "mallory",
    label := none }

/-- Counterexample to C5: `register_did` accepts and persists a public key
(`"!"`) that is not even base64url, let alone a 32-byte value — no key
validation happens at registration. -/
theorem C5_counterexample :
    (register_did 0 emptySt reqBadKey).1 =
      Except.ok (("did:sigil:mallory"), ("active")) ∧
    (register_did 0 emptySt reqBadKey).2.pool.dids.map (fun d => d.public_key) =
      [("!")] ∧
    base64urlDecode ("!") = none := by
  exact ⟨rfl, rfl, rfl⟩

/-- C5 (amended): `register_did` validates only the `did:sigil:` prefix and
uniqueness of the identifier; it persists the public key text verbatim with
status `active`, with no requirement that it decode to 32 bytes (or at all).
The 32-byte invariant is enforced only later, by the signature verifier. -/
theorem C5_amended_register_persists_key_unchecked
    (now : Nat) (st : AppState) (req : RegisterRequest) :
    ((∃ o, (register_did now st req).1 = Except.ok o) ↔
      (startsWith didScheme req.did = true ∧
       st.pool.dids.any (fun d => d.did == req.did) = false)) ∧
    (∀ o, (register_did now st req).1 = Except.ok o →
      o = (req.did, ("active")) ∧
      (register_did now st req).2.pool.dids = st.pool.dids ++
        [{ did := req.did, public_key := req.public_key, nspace := req.nspace,
           label := req.label, status := "active", created_at := now,
           updated_at := now, revoked_at := none }]) := by
  cases hp : startsWith didScheme req.did
  · refine ⟨⟨?_, ?_⟩, ?_⟩
    · rintro ⟨o, h⟩
      simp [register_did, hp] at h
    · rintro ⟨hpt, -⟩
      simp at hpt
    · intro o h
      simp [register_did, hp] at h
  · cases hdup : st.pool.dids.any (fun d => d.did == req.did)
    · have hred : register_did now st req =
          (Except.ok (req.did, "active"),
           { st with pool := { st.pool with dids := st.pool.dids ++
             [{ did := req.did, public_key := req.public_key, nspace := req.nspace,
                label := req.label, status := "active", created_at := now,
                updated_at := now, revoked_at := none }] } }) := by
        simp [register_did, hp, hdup]
      rw [hred]
      refine ⟨⟨fun _ => ⟨rfl, rfl⟩, fun _ => ⟨(req.did, ("active")), rfl⟩⟩, ?_⟩
      intro o h
      injection h with h1
      exact ⟨h1.symm, rfl⟩
    · refine ⟨⟨?_, ?_⟩, ?_⟩
      · rintro ⟨o, h⟩
        simp [register_did, hp, hdup] at h
      · rintro ⟨-, hd⟩
        simp at hd
      · intro o h
        simp [register_did, hp, hdup] at h

/-- Witness for C5 (amended): the malformed key `"!"` is persisted verbatim. -/
theorem C5_witness :
    ("did:sigil:mallory", "active") = (reqBadKey.did, ("active")) ∧
    (register_did 0 emptySt reqBadKey).2.pool.dids = [] ++
      [{ did := reqBadKey.did, public_key := reqBadKey.public_key,
         nspace := reqBadKey.nspace, label := reqBadKey.label,
         status := "active", created_at := 0, updated_at := 0,
         revoked_at := none }] :=
  (C5_amended_register_persists_key_unchecked 0 emptySt reqBadKey).2
    (("did:sigil:mallory"), ("active")) rfl

-- ── C7 ────────────────────────────────────────────────────────────────────────

/-- A base64url text of 43 `A` characters: decodes to exactly 32 zero
bytes, so it is a well-formed 32-byte key encoding. -/
def pkA : String := "AAAAAAAAAAAAAAAAAAAAAAAAAAAAAAAAAAAAAAAAAAA"

def reqAliceEx : RegisterRequest :=
  { did := "did:ex:alice", public_key := pkA, nspace := "ex", label := none }

/-- Counterexample to C7: the code rejects the spec example's identity
`did:ex:alice` outright (`did:sigil:` prefix required), even with a valid
32-byte key, and its canonical message prefix is `sigil-registry:`, not
`reg:`. -/
theorem C7_counterexample :
    (register_did 0 emptySt reqAliceEx).1 =
      Except.error (RegistryError.InvalidDid
        ("DID must start with 'did:sigil:' — got: did:ex:alice")) ∧
    base64urlDecode pkA = some (List.replicate 32 0) ∧
    (List.replicate 32 (0 : Nat)).length = 32 ∧
    pattern_message ("leak1") ("secret") ("foo@bar\\\\.com") ("did:ex:alice") ≠
      ("reg:pattern:leak1:secret:foo@bar\\\\.com:did:ex:alice") := by
  refine ⟨rfl, by decide, by decide, by decide⟩

def reqAliceSig : RegisterRequest :=
  { did := "did:sigil:alice", public_key := pkA, nspace := "alice", label := none }

def stAfterReg : AppState := (register_did 0 emptySt reqAliceSig).2

def reqPatC7 (sig : String) : CreatePatternRequest :=
  { name := "leak1", description := none, category := "secret",
    pattern := "foo@bar\\\\.com", replacement_hint := none, severity := none,
    author_did := "did:sigil:alice", signature := sig }

/-- C7 (amended): with the scheme the code requires (`did:sigil:alice`) and
the code's canonical prefix (`sigil-registry:`), registration with the valid
32-byte key succeeds and creates an active identity, and a pattern
submission whose signature verifies over that canonical message under
alice's key is accepted, returning the created id with the row stored as
`verified = false`. -/
theorem C7_amended_example_under_code_conventions
    (sv : SigVerify) (regexOk : String → Bool) (sig : String)
    (hrex : regexOk ("foo@bar\\\\.com") = true)
    (hsig : sv pkA
        (pattern_message ("leak1") ("secret") ("foo@bar\\\\.com") ("did:sigil:alice"))
        sig = Except.ok ()) :
    (register_did 0 emptySt reqAliceSig).1 =
      Except.ok (("did:sigil:alice"), ("active")) ∧
    activeKey stAfterReg.pool ("did:sigil:alice") = some pkA ∧
    pattern_message ("leak1") ("secret") ("foo@bar\\\\.com") ("did:sigil:alice") =
      ("sigil-registry:pattern:leak1:secret:foo@bar\\\\.com:did:sigil:alice") ∧
    (create_pattern regexOk sv ("id-1") 1 stAfterReg (reqPatC7 sig)).1 =
      Except.ok (("id-1"), ("pending_review")) ∧
    (create_pattern regexOk sv ("id-1") 1 stAfterReg (reqPatC7 sig)).2.pool.scanner_patterns.map
        (fun p => (p.id, p.verified)) = [(("id-1"), false)] := by
  have hco := create_pattern_ok_spec regexOk sv ("id-1") 1 stAfterReg (reqPatC7 sig)
    pkA rfl rfl hrex rfl hsig rfl
  rw [hco]
  exact ⟨rfl, rfl, rfl, rfl, rfl⟩

/-- Witness for C7 (amended) under concretely accepting oracles. -/
theorem C7_witness :
    (register_did 0 emptySt reqAliceSig).1 =
      Except.ok (("did:sigil:alice"), ("active")) ∧
    (create_pattern regexAll svOk ("id-1") 1 stAfterReg (reqPatC7 ("s"))).1 =
      Except.ok (("id-1"), ("pending_review")) := by
  have h := C7_amended_example_under_code_conventions svOk regexAll ("s") rfl rfl
  exact ⟨h.1, h.2.2.2.1⟩

theorem patLe_trans (a b c : ScannerPattern)
    (h1 : patLe a b = true) (h2 : patLe b c = true) : patLe a c = true := by
  simp only [patLe, Bool.or_eq_true, Bool.and_eq_true, decide_eq_true_eq,
    beq_iff_eq] at h1 h2 ⊢
  omega

theorem patLe_total (a b : ScannerPattern) : (patLe a b || patLe b a) = true := by
  simp only [patLe, Bool.or_eq_true, Bool.and_eq_true, decide_eq_true_eq,
    beq_iff_eq]
  omega

theorem patLe_imp (a b : ScannerPattern) (h : patLe a b = true) : patOrdered a b := by
  simpa [patLe, patOrdered] using h

theorem polLeUp_trans (a b c : SecurityPolicy)
    (h1 : polLeUp a b = true) (h2 : polLeUp b c = true) : polLeUp a c = true := by
  simp only [polLeUp, decide_eq_true_eq] at h1 h2 ⊢
  omega

theorem polLeUp_total (a b : SecurityPolicy) : (polLeUp a b || polLeUp b a) = true := by
  simp only [polLeUp, Bool.or_eq_true, decide_eq_true_eq]
  omega

theorem polLeUp_imp (a b : SecurityPolicy) (h : polLeUp a b = true) :
    polOrderedUp a b := by
  simpa [polLeUp, polOrderedUp] using h

theorem polLeVer_trans (a b c : SecurityPolicy)
    (h1 : polLeVer a b = true) (h2 : polLeVer b c = true) : polLeVer a c = true := by
  cases ha : a.verified <;> cases hb : b.verified <;> cases hc : c.verified <;>
    simp_all [polLeVer] <;> omega

theorem polLeVer_total (a b : SecurityPolicy) :
    (polLeVer a b || polLeVer b a) = true := by
  cases ha : a.verified <;> cases hb : b.verified <;>
    simp_all [polLeVer] <;> omega

theorem polLeVer_imp (a b : SecurityPolicy) (h : polLeVer a b = true) :
    polOrderedVer a b := by
  cases ha : a.verified <;> cases hb : b.verified <;>
    simp_all [polLeVer, polOrderedVer]

/-- Any page cut from a merge-sorted list is pairwise ordered under any
relation implied by the comparator, provided the comparator is transitive
and total. -/
theorem pairwise_page {α : Type} (le : α → α → Bool) (R : α → α → Prop)
    (himp : ∀ a b, le a b = true → R a b)
    (htrans : ∀ (a b c : α), le a b = true → le b c = true → le a c = true)
    (htotal : ∀ (a b : α), (le a b || le b a) = true)
    (l : List α) (offset limit : Int) :
    (sqlPage offset limit (List.mergeSort l le)).Pairwise R := by
  have hs : (List.mergeSort l le).Pairwise (fun a b => le a b = true) :=
    List.sorted_mergeSort htrans htotal l
  have hsub : List.Sublist (sqlPage offset limit (List.mergeSort l le))
      (List.mergeSort l le) :=
    List.Sublist.trans (List.take_sublist _ _) (List.drop_sublist _ _)
  exact (List.Pairwise.sublist hsub hs).imp (fun h => himp _ _ h)

-- ── C8 ────────────────────────────────────────────────────────────────────────

def polA : SecurityPolicy :=
  { id := "a", tool_name := "t", risk_level := "low", requires_trust := "Low",
    requires_confirmation := false, rationale := none, author_did := none,
    votes_up := 5, votes_down := 0, verified := false, active := true,
    created_at := 0, updated_at := 0 }

def polB : SecurityPolicy :=
  { id := "b", tool_name := "t", risk_level := "low", requires_trust := "Low",
    requires_confirmation := false, rationale := none, author_did := none,
    votes_up := 0, votes_down := 0, verified := true, active := true,
    created_at := 0, updated_at := 0 }

def stC8 : AppState :=
  { pool := { dids := [], scanner_patterns := [],
              security_policies := [polA, polB], registry_votes := [] },
    cache := none, registry_key := none }

def qAllC8 : PolicyQuery :=
  { tool_name := none, risk_level := none, verified := none,
    limit := none, offset := none }

/-- Counterexample to C8: the unfiltered policies listing puts a verified
policy with 0 up-votes ahead of an unverified one with 5 up-votes —
`verified`, not `votes_up`, is the primary sort key there. -/
theorem C8_counterexample :
    (list_policies stC8 qAllC8).map (fun p => p.votes_up) = [0, 5] ∧
    ¬ (list_policies stC8 qAllC8).Pairwise polOrderedUp := by
  have hms : List.mergeSort (([polA, polB] : List SecurityPolicy).filter
      (fun p => p.active)) polLeVer = [polB, polA] := by
    simp [List.mergeSort, List.merge, polLeVer, polA, polB]
  have hval : list_policies stC8 qAllC8 = [polB, polA] := by
    show sqlPage ((none : Option Int).getD 0) (min ((none : Option Int).getD 50) 200)
      (List.mergeSort (([polA, polB] : List SecurityPolicy).filter
        (fun p => p.active)) polLeVer) = [polB, polA]
    rw [hms]
    rfl
  constructor
  · rw [hval]
    rfl
  · rw [hval]
    intro hpw
    have h5 := (List.pairwise_cons.mp hpw).1 polA (by simp)
    norm_num [polOrderedUp, polA, polB] at h5

/-- C8 (amended): pattern pages are ordered primarily by votes-up descending
with downloads as tiebreak; policy pages are ordered by votes-up descending
only when a verified filter is given (without a risk filter) — in every
other branch, including the unfiltered one, `verified DESC` is the primary
key and votes-up only the secondary one. -/
theorem C8_amended_list_ordering :
    (∀ (st : AppState) (q : PatternQuery),
      (list_patterns st q).Pairwise patOrdered) ∧
    (∀ (st : AppState) (q : PolicyQuery),
      match q.tool_name, q.risk_level, q.verified with
      | none, none, some _ => (list_policies st q).Pairwise polOrderedUp
      | some _, none, some _ => (list_policies st q).Pairwise polOrderedUp
      | _, _, _ => (list_policies st q).Pairwise polOrderedVer) := by
  constructor
  · intro st q
    rcases hc : q.category with _ | cat <;> rcases hv : q.verified with _ | v <;>
      simp only [list_patterns, hc, hv] <;>
      exact pairwise_page patLe patOrdered patLe_imp patLe_trans patLe_total _ _ _
  · intro st q
    rcases ht : q.tool_name with _ | tool <;>
      rcases hr : q.risk_level with _ | risk <;>
      rcases hv : q.verified with _ | v <;>
      simp only [list_policies, ht, hr, hv] <;>
      first
      | exact pairwise_page polLeUp polOrderedUp polLeUp_imp polLeUp_trans
          polLeUp_total _ _ _
      | exact pairwise_page polLeVer polOrderedVer polLeVer_imp polLeVer_trans
          polLeVer_total _ _ _

-- ── C9 ────────────────────────────────────────────────────────────────────────

/-- C9: the outcome and state change of `register_did` are independent of the
configured registry key — for any two key configurations the result, the
stored tables and the cache are identical; nothing in the core reads
`registry_key`. -/
theorem C9_register_independent_of_registry_key
    (now : Nat) (st : AppState) (k1 k2 : Option String) (req : RegisterRequest) :
    (register_did now { st with registry_key := k1 } req).1 =
      (register_did now { st with registry_key := k2 } req).1 ∧
    (register_did now { st with registry_key := k1 } req).2.pool =
      (register_did now { st with registry_key := k2 } req).2.pool ∧
    (register_did now { st with registry_key := k1 } req).2.cache =
      (register_did now { st with registry_key := k2 } req).2.cache := by
  unfold register_did
  split
  · exact ⟨rfl, rfl, rfl⟩
  · split
    · exact ⟨rfl, rfl, rfl⟩
    · exact ⟨rfl, rfl, rfl⟩

-- ── C10 ───────────────────────────────────────────────────────────────────────

/-- C10: the canonical message builders are not injective — moving a `:` from
one field to its neighbour yields the same canonical string for distinct
field tuples, for `pattern_message`, `policy_message` and `vote_message`
alike; one valid signature therefore authenticates more than one payload. -/
theorem C10_canonical_messages_not_injective :
    (pattern_message ("a:b") ("c") ("p") ("d") = pattern_message ("a") ("b:c") ("p") ("d") ∧
      (("a:b"), ("c")) ≠ (("a"), ("b:c"))) ∧
    (policy_message ("t:x") ("low") ("Low") ("d") = policy_message ("t") ("x:low") ("Low") ("d") ∧
      (("t:x"), ("low")) ≠ (("t"), ("x:low"))) ∧
    (vote_message ("pattern") ("i:up") ("up") ("d") = vote_message ("pattern:i") ("up") ("up") ("d") ∧
      (("pattern"), ("i:up")) ≠ (("pattern:i"), ("up"))) := by
  refine ⟨⟨?_, ?_⟩, ⟨?_, ?_⟩, ⟨?_, ?_⟩⟩ <;> decide

end SigilRegistry
